import Mathlib

/-!
# ColoredTriangle.cpp

A shallow embedding of `src/ColoredTriangle.cpp`: the program opens a window,
compiles two shaders, uploads one triangle and renders it until the user quits.

The program is a straight line of calls into SDL and OpenGL followed by one
loop.  It is embedded as a function from

* the values the libraries hand back (`Env`), and
* the input events delivered to the program, grouped by polling pass,

to the sequence of library calls the program makes (`Run.trace`) and the value
`main` returns (`Run.exit`).
-/

namespace ColoredTriangle

/-! ## Values -/

/-- A `GLfloat`, represented by the rational number the single-precision value
stands for.  The value of a literal of the source is given by `float32`. -/
abbrev GLfloat := ℚ

/-- The position of the highest set bit of `n`, that is the floor of its binary
logarithm (0 for 0 and 1); the first argument bounds the recursion and is `n`
itself at every use. -/
def floorLog2 : Nat → Nat → Nat
  | 0, _ => 0
  | fuel + 1, n => if n < 2 then 0 else floorLog2 fuel (n / 2) + 1

/-- The fraction `N / D` rounded to an integer, to nearest and ties to even. -/
def roundHalfEven (N D : Nat) : Nat :=
  let q := N / D
  let r := N % D
  if 2 * r < D then q else if D < 2 * r then q + 1 else if q % 2 = 0 then q else q + 1

/-- The value of a `float` literal: the IEEE 754 single-precision number nearest
to the decimal number written, ties to even, with 24 bits of significand and
exponents from -126 (below that the numbers are subnormal).  It is meant for
magnitudes below 2^128, which is all a literal of the program has. -/
def float32 (x : ℚ) : GLfloat :=
  let n := x.num.natAbs
  let d := x.den
  if n = 0 then 0 else
    let e0 : Int := (floorLog2 n n : Int) - (floorLog2 d d : Int)
    let e : Int := if d * 2 ^ e0.toNat ≤ n * 2 ^ (-e0).toNat then e0 else e0 - 1
    let s : Int := 23 - max e (-126)
    let m := roundHalfEven (n * 2 ^ s.toNat) (d * 2 ^ (-s).toNat)
    let v : ℚ := (m : ℚ) * 2 ^ (-s).toNat / 2 ^ s.toNat
    if x < 0 then -v else v

/-- The OpenGL enumerants the program passes as arguments. -/
inductive GLenum
  | GL_VERTEX_SHADER
  | GL_FRAGMENT_SHADER
  | GL_COMPILE_STATUS
  | GL_ARRAY_BUFFER
  | GL_STATIC_DRAW
  | GL_FLOAT
  | GL_TRIANGLES
  | GL_COLOR_BUFFER_BIT
  | GL_VENDOR
  | GL_RENDERER
  | GL_VERSION
  deriving DecidableEq, Repr

/-- The `SDL_GLattr` values the program sets. -/
inductive SDL_GLattr
  | SDL_GL_CONTEXT_PROFILE_MASK
  | SDL_GL_CONTEXT_MAJOR_VERSION
  | SDL_GL_CONTEXT_MINOR_VERSION
  deriving DecidableEq, Repr

/-- An `SDL_version`: three small numbers. -/
structure SDL_version where
  major : Nat
  minor : Nat
  patch : Nat
  deriving DecidableEq, Repr

/-- The part of an `SDL_Event` the program reads: the `type` tag and, for a
keyboard event, `key.keysym.sym`. -/
structure SDL_Event where
  type : Nat
  sym : Int
  deriving DecidableEq, Repr

/-- Event type tag `SDL_QUIT` (SDL2 `SDL_events.h`). -/
def SDL_QUIT : Nat := 0x100

/-- Event type tag `SDL_KEYDOWN` (SDL2 `SDL_events.h`). -/
def SDL_KEYDOWN : Nat := 0x300

/-- Event type tag `SDL_KEYUP` (SDL2 `SDL_events.h`). -/
def SDL_KEYUP : Nat := 0x301

/-- Key code `SDLK_ESCAPE`, the character code of ESC (SDL2 `SDL_keycode.h`). -/
def SDLK_ESCAPE : Int := 27

/-- Key code `SDLK_f`, the character code of the letter f (SDL2 `SDL_keycode.h`). -/
def SDLK_f : Int := 102

/-- Subsystem flag `SDL_INIT_VIDEO` (SDL2 `SDL.h`). -/
def SDL_INIT_VIDEO : Nat := 0x20

/-- Window flag `SDL_WINDOW_FULLSCREEN` (SDL2 `SDL_video.h`). -/
def SDL_WINDOW_FULLSCREEN : Nat := 0x1

/-- Window flag `SDL_WINDOW_OPENGL` (SDL2 `SDL_video.h`). -/
def SDL_WINDOW_OPENGL : Nat := 0x2

/-- Profile value `SDL_GL_CONTEXT_PROFILE_CORE` (SDL2 `SDL_video.h`). -/
def SDL_GL_CONTEXT_PROFILE_CORE : Int := 1

/-- The size in bytes of a `float` / `GLfloat` (OpenGL fixes `GLfloat` at 32 bits). -/
def sizeofFloat : Nat := 4

/-! ## The source's global data -/

/-- Source text of the 2D vertex shader (`vertexSource`). -/
def vertexSource : String :=
  "#version 150 core\n" ++
  "in vec2 position;" ++
  "in vec3 inColor;" ++
  "out vec3 Color;" ++
  "void main() \x7b" ++
  "  Color = inColor;" ++
  "  gl_Position = vec4(position, 0.0, 1.0);" ++
  "\x7d"

/-- Source text of the fragment shader (`fragmentSource`). -/
def fragmentSource : String :=
  "#version 150 core\n" ++
  "in vec3 Color;" ++
  "out vec4 outColor;" ++
  "void main() \x7b" ++
  "  outColor = vec4(Color, 1.0);" ++
  "\x7d"

/-- Global `screenWidth`. -/
def screenWidth : Int := 800

/-- Global `screenHeight`. -/
def screenHeight : Int := 600

/-- The local array `vertices` of `main`.  Every literal of it is a multiple of
1/2 that single precision holds exactly, so the entries are written as the
numbers themselves. -/
def vertices : List GLfloat :=
  [ 0.0, 0.5, 1.0, 0.0, 0.0,
    0.5, -0.5, 0.0, 1.0, 0.0,
    -0.5, -0.5, 0.0, 0.0, 1.0 ]

/-! ## Library calls -/

/-- One call into SDL, glad, OpenGL or the C library, with the arguments the
program passes.  Output pointers are left out; `SDL_PollEvent` carries what it
delivered (`none` when it returned 0) and `printf` carries the formatted text. -/
inductive Call
  | SDL_Init (flags : Nat)
  | SDL_GetVersion
  | printf (text : String)
  | SDL_GL_SetAttribute (attr : SDL_GLattr) (value : Int)
  | SDL_CreateWindow (title : String) (x y w h : Int) (flags : Nat)
  | SDL_GetError
  | SDL_GL_CreateContext (window : Nat)
  | gladLoadGLLoader
  | glGetString (name : GLenum)
  | glCreateShader (type : GLenum)
  | glShaderSource (shader : Nat) (count : Nat) (source : String)
  | glCompileShader (shader : Nat)
  | glGetShaderiv (shader : Nat) (pname : GLenum)
  | glGetShaderInfoLog (shader : Nat) (bufSize : Nat)
  | glCreateProgram
  | glAttachShader (program shader : Nat)
  | glBindFragDataLocation (program : Nat) (color : Nat) (name : String)
  | glLinkProgram (program : Nat)
  | glGenBuffers (n : Nat)
  | glBindBuffer (target : GLenum) (buffer : Nat)
  | glBufferData (target : GLenum) (size : Nat) (data : List GLfloat) (usage : GLenum)
  | glGenVertexArrays (n : Nat)
  | glBindVertexArray (array : Nat)
  | glGetAttribLocation (program : Nat) (name : String)
  | glVertexAttribPointer (index : Int) (size : Nat) (type : GLenum)
      (normalized : Bool) (stride : Nat) (pointer : Nat)
  | glEnableVertexAttribArray (index : Int)
  | SDL_PollEvent (delivered : Option SDL_Event)
  | SDL_SetWindowFullscreen (window : Nat) (flags : Nat)
  | glClearColor (red green blue alpha : GLfloat)
  | glClear (mask : GLenum)
  | glUseProgram (program : Nat)
  | glDrawArrays (mode : GLenum) (first : Nat) (count : Nat)
  | SDL_GL_SwapWindow (window : Nat)
  | glDeleteProgram (program : Nat)
  | glDeleteShader (shader : Nat)
  | glDeleteBuffers (n : Nat) (buffer : Nat)
  | glDeleteVertexArrays (n : Nat) (array : Nat)
  | SDL_GL_DeleteContext (context : Nat)
  | SDL_Quit
  deriving DecidableEq

/-- What the libraries and the platform hand back to the program.  Pointers and
object names are numbers, the null pointer being 0. -/
structure Env where
  /-- The value of the macro `EXIT_FAILURE` on the platform. -/
  EXIT_FAILURE : Int
  /-- What `SDL_VERSION` stores in `comp`. -/
  comp : SDL_version
  /-- What `SDL_GetVersion` stores in `linked`. -/
  linked : SDL_version
  /-- The pointer returned by `SDL_CreateWindow`. -/
  window : Nat
  /-- The text returned by `SDL_GetError`. -/
  SDL_GetError : String
  /-- The handle returned by `SDL_GL_CreateContext`. -/
  context : Nat
  /-- The value returned by `gladLoadGLLoader`. -/
  gladLoadGLLoader : Int
  /-- The texts returned by `glGetString`. -/
  glGetString : GLenum → String
  /-- The name returned by `glCreateShader(GL_VERTEX_SHADER)`. -/
  vertexShader : Nat
  /-- The compile status `glGetShaderiv` reports for the vertex shader. -/
  vertexStatus : Int
  /-- What `glGetShaderInfoLog` with the given buffer size leaves in the buffer,
  for the vertex shader. -/
  vertexInfoLog : Nat → String
  /-- The name returned by `glCreateShader(GL_FRAGMENT_SHADER)`. -/
  fragmentShader : Nat
  /-- The compile status `glGetShaderiv` reports for the fragment shader. -/
  fragmentStatus : Int
  /-- What `glGetShaderInfoLog` with the given buffer size leaves in the buffer,
  for the fragment shader. -/
  fragmentInfoLog : Nat → String
  /-- The name returned by `glCreateProgram`. -/
  shaderProgram : Nat
  /-- The name stored by `glGenBuffers`. -/
  vbo : Nat
  /-- The name stored by `glGenVertexArrays`. -/
  vao : Nat
  /-- The location returned by `glGetAttribLocation(shaderProgram, "position")`. -/
  posAttrib : Int
  /-- The location returned by `glGetAttribLocation(shaderProgram, "inColor")`. -/
  colAttrib : Int

/-- The two variables the frame loop mutates: the local `quit` and the global
`fullScreen`. -/
structure LoopState where
  quit : Bool
  fullScreen : Bool
  deriving DecidableEq, Repr

/-- The observable result of running `main` on a finite record of input: the
calls made, in order, and the value returned; `exit = none` means the frame
loop is still running when the recorded input ends. -/
structure Run where
  trace : List Call
  exit : Option Int

/-! ## The program -/

/-- Function `loadShader`.  `status` is what `glGetShaderiv` stores and
`infoLog` what `glGetShaderInfoLog` leaves in the buffer for a given size. -/
def loadShader (status : Int) (infoLog : Nat → String)
    (shaderID : Nat) (shaderSource : String) : List Call :=
  [ Call.glShaderSource shaderID 1 shaderSource,
    Call.glCompileShader shaderID,
    Call.glGetShaderiv shaderID GLenum.GL_COMPILE_STATUS ] ++
  (if status = 0 then
    [ Call.glGetShaderInfoLog shaderID 512,
      Call.printf ("Shader Compile Failed. Info:\n\n" ++ infoLog 512 ++ "\n") ]
  else [])

/-- The body of the inner `while (SDL_PollEvent(&windowEvent))` loop: the three
`if` statements, in order. -/
def handleEvent (window : Nat) (windowEvent : SDL_Event) (st : LoopState) :
    LoopState × List Call :=
  let st1 : LoopState :=
    if windowEvent.type = SDL_QUIT then { st with quit := true } else st
  let st2 : LoopState :=
    if windowEvent.type = SDL_KEYUP ∧ windowEvent.sym = SDLK_ESCAPE then
      { st1 with quit := true }
    else st1
  if windowEvent.type = SDL_KEYUP ∧ windowEvent.sym = SDLK_f then
    let fullScreen := !st2.fullScreen
    ({ st2 with fullScreen := fullScreen },
      [Call.SDL_SetWindowFullscreen window (if fullScreen then SDL_WINDOW_FULLSCREEN else 0)])
  else (st2, [])

/-- The inner loop `while (SDL_PollEvent(&windowEvent)) ...` on the events that
are pending: each call delivers the next one, the last call returns 0. -/
def pollEvents (window : Nat) : List SDL_Event → LoopState → LoopState × List Call
  | [], st => (st, [Call.SDL_PollEvent none])
  | windowEvent :: pending, st =>
    let r := handleEvent window windowEvent st
    let rest := pollEvents window pending r.1
    (rest.1, Call.SDL_PollEvent (some windowEvent) :: (r.2 ++ rest.2))

/-- The part of the loop body under `// draw content`. -/
def drawContent (env : Env) : List Call :=
  [ Call.glClearColor (float32 0.2) (float32 0.4) (float32 0.8) (float32 1.0),
    Call.glClear GLenum.GL_COLOR_BUFFER_BIT,
    Call.glUseProgram env.shaderProgram,
    Call.glBindVertexArray env.vao,
    Call.glDrawArrays GLenum.GL_TRIANGLES 0 3,
    Call.SDL_GL_SwapWindow env.window ]

/-- The loop `while (!quit) ...` of `main`.  The argument lists, for each
iteration in turn, the events pending when that iteration polls.  When the
list is used up and `quit` is still false the run is cut there. -/
def gameLoop (env : Env) : List (List SDL_Event) → LoopState → LoopState × List Call
  | [], st => (st, [])
  | pending :: later, st =>
    if st.quit then (st, [])
    else
      let polled := pollEvents env.window pending st
      let rest := gameLoop env later polled.1
      (rest.1, polled.2 ++ drawContent env ++ rest.2)

/-- Function `main` up to and including `SDL_CreateWindow`. -/
def startup (env : Env) : List Call :=
  [ Call.SDL_Init SDL_INIT_VIDEO,
    Call.SDL_GetVersion,
    Call.printf ("\nCompiled against SDL version " ++ toString env.comp.major ++ "." ++
      toString env.comp.minor ++ "." ++ toString env.comp.patch ++ "\n"),
    Call.printf ("Linked SDL version " ++ toString env.linked.major ++ "." ++
      toString env.linked.minor ++ "." ++ toString env.linked.patch ++ "\n"),
    Call.SDL_GL_SetAttribute SDL_GLattr.SDL_GL_CONTEXT_PROFILE_MASK SDL_GL_CONTEXT_PROFILE_CORE,
    Call.SDL_GL_SetAttribute SDL_GLattr.SDL_GL_CONTEXT_MAJOR_VERSION 3,
    Call.SDL_GL_SetAttribute SDL_GLattr.SDL_GL_CONTEXT_MINOR_VERSION 2,
    Call.SDL_CreateWindow "My OpenGL Program" 100 100 screenWidth screenHeight
      SDL_WINDOW_OPENGL ]

/-- Function `main`, the success branch of `if (gladLoadGLLoader(...))`. -/
def loaderReport (env : Env) : List Call :=
  [ Call.printf "OpenGL loaded\n",
    Call.glGetString GLenum.GL_VENDOR,
    Call.printf ("Vendor:   " ++ env.glGetString GLenum.GL_VENDOR ++ "\n"),
    Call.glGetString GLenum.GL_RENDERER,
    Call.printf ("Renderer: " ++ env.glGetString GLenum.GL_RENDERER ++ "\n"),
    Call.glGetString GLenum.GL_VERSION,
    Call.printf ("Version:  " ++ env.glGetString GLenum.GL_VERSION ++ "\n") ]

/-- Function `main`, from `// load and compile shaders` to `glLinkProgram`. -/
def shaderSetup (env : Env) : List Call :=
  [Call.glCreateShader GLenum.GL_VERTEX_SHADER] ++
  loadShader env.vertexStatus env.vertexInfoLog env.vertexShader vertexSource ++
  [Call.glCreateShader GLenum.GL_FRAGMENT_SHADER] ++
  loadShader env.fragmentStatus env.fragmentInfoLog env.fragmentShader fragmentSource ++
  [ Call.glCreateProgram,
    Call.glAttachShader env.shaderProgram env.vertexShader,
    Call.glAttachShader env.shaderProgram env.fragmentShader,
    Call.glBindFragDataLocation env.shaderProgram 0 "outColor",
    Call.glLinkProgram env.shaderProgram ]

/-- Function `main`, from `// create VBO` to the `glBindVertexArray(0)` before the loop. -/
def geometrySetup (env : Env) : List Call :=
  [ Call.glGenBuffers 1,
    Call.glBindBuffer GLenum.GL_ARRAY_BUFFER env.vbo,
    Call.glBufferData GLenum.GL_ARRAY_BUFFER (vertices.length * sizeofFloat) vertices
      GLenum.GL_STATIC_DRAW,
    Call.glGenVertexArrays 1,
    Call.glBindVertexArray env.vao,
    Call.glGetAttribLocation env.shaderProgram "position",
    Call.glVertexAttribPointer env.posAttrib 2 GLenum.GL_FLOAT false (5 * sizeofFloat) 0,
    Call.glEnableVertexAttribArray env.posAttrib,
    Call.glGetAttribLocation env.shaderProgram "inColor",
    Call.glVertexAttribPointer env.colAttrib 3 GLenum.GL_FLOAT false (5 * sizeofFloat)
      (2 * sizeofFloat),
    Call.glEnableVertexAttribArray env.colAttrib,
    Call.glBindVertexArray 0 ]

/-- Function `main`, the statements under `// clean up`. -/
def cleanUp (env : Env) : List Call :=
  [ Call.glDeleteProgram env.shaderProgram,
    Call.glDeleteShader env.fragmentShader,
    Call.glDeleteShader env.vertexShader,
    Call.glDeleteBuffers 1 env.vbo,
    Call.glDeleteVertexArrays 1 env.vao,
    Call.SDL_GL_DeleteContext env.context,
    Call.SDL_Quit ]

/-- Function `main`.  `events` lists, for each iteration of the frame loop in
turn, the events pending when that iteration polls.  The unused local `aspect`
is left out; the globals start as `fullScreen = false`, `quit = false`. -/
def main (env : Env) (events : List (List SDL_Event)) : Run :=
  if env.window = 0 then
    { trace := startup env ++
        [ Call.SDL_GetError,
          Call.printf ("Could not create window: " ++ env.SDL_GetError ++ "\n") ],
      exit := some env.EXIT_FAILURE }
  else if env.gladLoadGLLoader ≠ 0 then
    let loop := gameLoop env events { quit := false, fullScreen := false }
    let running := startup env ++
      [Call.SDL_GL_CreateContext env.window, Call.gladLoadGLLoader] ++
      loaderReport env ++ shaderSetup env ++ geometrySetup env ++ loop.2
    if loop.1.quit then
      { trace := running ++ cleanUp env, exit := some 0 }
    else
      { trace := running, exit := none }
  else
    { trace := startup env ++
        [ Call.SDL_GL_CreateContext env.window, Call.gladLoadGLLoader,
          Call.printf "ERROR: Failed to initialize OpenGL context.\n" ],
      exit := some (-1) }

/-! ## Vocabulary of the properties -/

/-- An event that asks the program to stop: an `SDL_QUIT` event, or the release
of the Escape key. -/
def QuitEvent (e : SDL_Event) : Prop :=
  e.type = SDL_QUIT ∨ (e.type = SDL_KEYUP ∧ e.sym = SDLK_ESCAPE)

instance (e : SDL_Event) : Decidable (QuitEvent e) := by
  unfold QuitEvent; infer_instance

/-- The release of the F key. -/
def FRelease (e : SDL_Event) : Prop :=
  e.type = SDL_KEYUP ∧ e.sym = SDLK_f

instance (e : SDL_Event) : Decidable (FRelease e) := by
  unfold FRelease; infer_instance

/-- The window mode that `SDL_SetWindowFullscreen` is asked for when the flag
`fullScreen` has the given value. -/
def modeFlags (fullScreen : Bool) : Nat :=
  if fullScreen then SDL_WINDOW_FULLSCREEN else 0

/-- What a call to `SDL_PollEvent` delivered, for the calls that are one. -/
def polled : Call → Option (Option SDL_Event)
  | Call.SDL_PollEvent d => some d
  | _ => none

/-- The calls of the polling pass: `SDL_PollEvent` and `SDL_SetWindowFullscreen`. -/
def isInputCall : Call → Bool
  | Call.SDL_PollEvent _ => true
  | Call.SDL_SetWindowFullscreen _ _ => true
  | _ => false

/-- The calls the program makes to set up, use and release the rendering
context and the objects of the graphics API: context creation and destruction,
the loader, every `gl...` call and the buffer swap. -/
def isGraphicsCall : Call → Bool
  | Call.SDL_Init _ => false
  | Call.SDL_GetVersion => false
  | Call.printf _ => false
  | Call.SDL_GL_SetAttribute _ _ => false
  | Call.SDL_CreateWindow _ _ _ _ _ _ => false
  | Call.SDL_GetError => false
  | Call.SDL_PollEvent _ => false
  | Call.SDL_SetWindowFullscreen _ _ => false
  | Call.SDL_Quit => false
  | _ => true

/-- The calls that release something: the `glDelete...` calls,
`SDL_GL_DeleteContext` and `SDL_Quit`. -/
def isReleaseCall : Call → Bool
  | Call.glDeleteProgram _ => true
  | Call.glDeleteShader _ => true
  | Call.glDeleteBuffers _ _ => true
  | Call.glDeleteVertexArrays _ _ => true
  | Call.SDL_GL_DeleteContext _ => true
  | Call.SDL_Quit => true
  | _ => false

/-- The text a call to `printf` wrote, for the calls that are one. -/
def printed : Call → Option String
  | Call.printf text => some text
  | _ => none

/-- The data a `glBufferData` call uploads, with its size in bytes. -/
def uploaded : Call → Option (Nat × List GLfloat)
  | Call.glBufferData _ size data _ => some (size, data)
  | _ => none

/-- The layout a `glVertexAttribPointer` call declares: attribute location,
number of components, component type, stride in bytes, offset of the first
component in bytes. -/
def attribPointer : Call → Option (Int × Nat × GLenum × Nat × Nat)
  | Call.glVertexAttribPointer index size type _ stride pointer =>
    some (index, size, type, stride, pointer)
  | _ => none

/-- The byte offset in the bound buffer at which OpenGL reads component `j` of
vertex `i` of a float attribute declared with the given stride and offset. -/
def componentByte (stride pointer i j : Nat) : Nat :=
  pointer + i * stride + j * sizeofFloat

/-- The float stored at a byte offset of a buffer holding `data`; `none` when the
offset is not the start of a float of the buffer. -/
def readFloat (data : List GLfloat) (byte : Nat) : Option GLfloat :=
  if byte % sizeofFloat = 0 then data[byte / sizeofFloat]? else none

/-- The components OpenGL reads for vertex `i` of a float attribute with `size`
components declared with the given stride and offset. -/
def fetchAttrib (data : List GLfloat) (size stride pointer i : Nat) : List (Option GLfloat) :=
  (List.range size).map (fun j => readFloat data (componentByte stride pointer i j))

/-- The resources main creates and releases. -/
inductive Resource
  | context
  | vertexShader
  | fragmentShader
  | shaderProgram
  | vbo
  | vao
  deriving DecidableEq, Repr

/-- The call that creates a resource. -/
def createCall (env : Env) : Resource → Call
  | Resource.context => Call.SDL_GL_CreateContext env.window
  | Resource.vertexShader => Call.glCreateShader GLenum.GL_VERTEX_SHADER
  | Resource.fragmentShader => Call.glCreateShader GLenum.GL_FRAGMENT_SHADER
  | Resource.shaderProgram => Call.glCreateProgram
  | Resource.vbo => Call.glGenBuffers 1
  | Resource.vao => Call.glGenVertexArrays 1

/-- The call that releases a resource. -/
def releaseCall (env : Env) : Resource → Call
  | Resource.context => Call.SDL_GL_DeleteContext env.context
  | Resource.vertexShader => Call.glDeleteShader env.vertexShader
  | Resource.fragmentShader => Call.glDeleteShader env.fragmentShader
  | Resource.shaderProgram => Call.glDeleteProgram env.shaderProgram
  | Resource.vbo => Call.glDeleteBuffers 1 env.vbo
  | Resource.vao => Call.glDeleteVertexArrays 1 env.vao

/-- In the trace, the first resource is created before the second. -/
def createdBefore (env : Env) (trace : List Call) (r1 r2 : Resource) : Prop :=
  trace.indexOf (createCall env r1) < trace.indexOf (createCall env r2)

instance (env : Env) (trace : List Call) (r1 r2 : Resource) :
    Decidable (createdBefore env trace r1 r2) := by
  unfold createdBefore; infer_instance

/-- In the trace, the first resource is released before the second. -/
def releasedBefore (env : Env) (trace : List Call) (r1 r2 : Resource) : Prop :=
  trace.indexOf (releaseCall env r1) < trace.indexOf (releaseCall env r2)

instance (env : Env) (trace : List Call) (r1 r2 : Resource) :
    Decidable (releasedBefore env trace r1 r2) := by
  unfold releasedBefore; infer_instance

/-- Sample event: the window is closed. -/
def closeEvent : SDL_Event := { type := SDL_QUIT, sym := 0 }

/-- Sample event: the Escape key goes down. -/
def escapePress : SDL_Event := { type := SDL_KEYDOWN, sym := SDLK_ESCAPE }

/-- Sample event: the Escape key comes up. -/
def escapeRelease : SDL_Event := { type := SDL_KEYUP, sym := SDLK_ESCAPE }

/-- Sample event: the F key comes up. -/
def fRelease : SDL_Event := { type := SDL_KEYUP, sym := SDLK_f }

/-- A sample environment in which every library call succeeds. -/
def sampleEnv : Env :=
  { EXIT_FAILURE := 1
    comp := { major := 2, minor := 0, patch := 20 }
    linked := { major := 2, minor := 0, patch := 22 }
    window := 7
    SDL_GetError := ""
    context := 9
    gladLoadGLLoader := 1
    glGetString := fun _ => "x"
    vertexShader := 1
    vertexStatus := 1
    vertexInfoLog := fun _ => ""
    fragmentShader := 2
    fragmentStatus := 1
    fragmentInfoLog := fun _ => ""
    shaderProgram := 3
    vbo := 1
    vao := 1
    posAttrib := 0
    colAttrib := 1 }

/-! ## The values of the literals -/

theorem float32_of (x : ℚ) (n d : Nat) (e0 e s : Int) (sp sn m : Nat)
    (hn : x.num = n) (hd : x.den = d) (hn0 : n ≠ 0)
    (he0 : e0 = (floorLog2 n n : Int) - (floorLog2 d d : Int))
    (he : e = if d * 2 ^ e0.toNat ≤ n * 2 ^ (-e0).toNat then e0 else e0 - 1)
    (hs : s = 23 - max e (-126)) (hsp : sp = s.toNat) (hsn : sn = (-s).toNat)
    (hm : m = roundHalfEven (n * 2 ^ sp) (d * 2 ^ sn)) :
    float32 x = (m : ℚ) * 2 ^ sn / 2 ^ sp := by
  have hpos : ¬ x < 0 := by
    rw [not_lt, ← Rat.num_nonneg, hn]; exact Int.natCast_nonneg n
  unfold float32
  simp only [hn, hd, Int.natAbs_ofNat, hn0, if_false, ← he0, ← he, ← hs, ← hsp, ← hsn, ← hm,
    hpos]

theorem float32_two_tenths : float32 0.2 = 13421773 / 67108864 := by
  rw [float32_of 0.2 1 5 (-2) (-3) 26 26 0 13421773 (by norm_num) (by norm_num) (by decide)
    (by decide) (by decide) (by decide) (by decide) (by decide) (by decide)]
  norm_num

theorem float32_four_tenths : float32 0.4 = 13421773 / 33554432 := by
  rw [float32_of 0.4 2 5 (-1) (-2) 25 25 0 13421773 (by norm_num) (by norm_num) (by decide)
    (by decide) (by decide) (by decide) (by decide) (by decide) (by decide)]
  norm_num

theorem float32_eight_tenths : float32 0.8 = 13421773 / 16777216 := by
  rw [float32_of 0.8 4 5 0 (-1) 24 24 0 13421773 (by norm_num) (by norm_num) (by decide)
    (by decide) (by decide) (by decide) (by decide) (by decide) (by decide)]
  norm_num

theorem float32_one : float32 1.0 = 1 := by
  rw [float32_of 1.0 1 1 0 0 23 23 0 8388608 (by norm_num) (by norm_num) (by decide)
    (by decide) (by decide) (by decide) (by decide) (by decide) (by decide)]
  norm_num

theorem float32_half : float32 0.5 = 0.5 := by
  rw [float32_of 0.5 1 2 (-1) (-1) 24 24 0 8388608 (by norm_num) (by norm_num) (by decide)
    (by decide) (by decide) (by decide) (by decide) (by decide) (by decide)]
  norm_num

theorem float32_zero : float32 0.0 = 0.0 := by
  have hn : (0.0 : ℚ).num = 0 := by norm_num
  unfold float32
  simp [hn]
  norm_num

/-- The entries of `vertices` are the single-precision values of the literals the
source writes (`-0.5f` being the negation of the literal `0.5f`). -/
theorem vertices_eq_literals :
    vertices =
      [ float32 0.0, float32 0.5, float32 1.0, float32 0.0, float32 0.0,
        float32 0.5, -float32 0.5, float32 0.0, float32 1.0, float32 0.0,
        -float32 0.5, -float32 0.5, float32 0.0, float32 0.0, float32 1.0 ] := by
  simp only [float32_zero, float32_half, float32_one, vertices]
  norm_num

theorem drawContent_eq (env : Env) :
    drawContent env =
      [ Call.glClearColor (13421773 / 67108864) (13421773 / 33554432) (13421773 / 16777216) 1,
        Call.glClear GLenum.GL_COLOR_BUFFER_BIT,
        Call.glUseProgram env.shaderProgram,
        Call.glBindVertexArray env.vao,
        Call.glDrawArrays GLenum.GL_TRIANGLES 0 3,
        Call.SDL_GL_SwapWindow env.window ] := by
  simp only [drawContent, float32_two_tenths, float32_four_tenths, float32_eight_tenths,
    float32_one]

/-! ## The event handler -/

theorem handleEvent_quit (window : Nat) (e : SDL_Event) (st : LoopState) :
    (handleEvent window e st).1.quit = (st.quit || decide (QuitEvent e)) := by
  unfold handleEvent QuitEvent
  by_cases h1 : e.type = SDL_QUIT <;> by_cases h2 : e.type = SDL_KEYUP <;>
    by_cases h3 : e.sym = SDLK_ESCAPE <;> by_cases h4 : e.sym = SDLK_f <;>
    simp_all [SDL_QUIT, SDL_KEYUP, SDLK_ESCAPE, SDLK_f]

theorem handleEvent_fullScreen (window : Nat) (e : SDL_Event) (st : LoopState) :
    (handleEvent window e st).1.fullScreen =
      (if FRelease e then !st.fullScreen else st.fullScreen) := by
  unfold handleEvent FRelease
  by_cases h1 : e.type = SDL_QUIT <;> by_cases h2 : e.type = SDL_KEYUP <;>
    by_cases h3 : e.sym = SDLK_ESCAPE <;> by_cases h4 : e.sym = SDLK_f <;>
    simp_all [SDL_QUIT, SDL_KEYUP, SDLK_ESCAPE, SDLK_f]

theorem handleEvent_trace (window : Nat) (e : SDL_Event) (st : LoopState) :
    (handleEvent window e st).2 =
      (if FRelease e then [Call.SDL_SetWindowFullscreen window (modeFlags (!st.fullScreen))]
       else []) := by
  unfold handleEvent FRelease modeFlags
  by_cases h1 : e.type = SDL_QUIT <;> by_cases h2 : e.type = SDL_KEYUP <;>
    by_cases h3 : e.sym = SDLK_ESCAPE <;> by_cases h4 : e.sym = SDLK_f <;>
    simp_all [SDL_QUIT, SDL_KEYUP, SDLK_ESCAPE, SDLK_f]

theorem not_quitEvent_of_fRelease {e : SDL_Event} (h : FRelease e) : ¬ QuitEvent e := by
  unfold FRelease at h
  unfold QuitEvent
  rcases h with ⟨h1, h2⟩
  simp [h1, h2, SDL_KEYUP, SDL_QUIT, SDLK_f, SDLK_ESCAPE]

/-! ## One polling pass -/

theorem pollEvents_quit (window : Nat) (pending : List SDL_Event) (st : LoopState) :
    (pollEvents window pending st).1.quit =
      (st.quit || pending.any (fun e => decide (QuitEvent e))) := by
  induction pending generalizing st with
  | nil => simp [pollEvents]
  | cons e es ih =>
    simp only [pollEvents, ih, handleEvent_quit, List.any_cons, Bool.or_assoc]

theorem pollEvents_state (window : Nat) (pending : List SDL_Event) (st : LoopState) :
    (pollEvents window pending st).1 =
      pending.foldl (fun s e => (handleEvent window e s).1) st := by
  induction pending generalizing st with
  | nil => simp [pollEvents]
  | cons e es ih => simp only [pollEvents, ih, List.foldl_cons]

theorem pollEvents_append (window : Nat) (before after : List SDL_Event) (st : LoopState) :
    pollEvents window (before ++ after) st =
      ((pollEvents window after (pollEvents window before st).1).1,
        (pollEvents window before st).2.dropLast ++
          (pollEvents window after (pollEvents window before st).1).2) := by
  induction before generalizing st with
  | nil => simp [pollEvents]
  | cons e es ih =>
    have hne : ∀ s, (pollEvents window es s).2 ≠ [] := by
      intro s; cases es <;> simp [pollEvents]
    have hne2 : ∀ s, (handleEvent window e st).2 ++ (pollEvents window es s).2 ≠ [] := by
      intro s; simp [hne s]
    rw [List.cons_append]
    simp only [pollEvents]
    rw [ih, List.dropLast_cons_of_ne_nil (hne2 _), List.dropLast_append_of_ne_nil _ (hne _)]
    simp

theorem pollEvents_polled (window : Nat) (pending : List SDL_Event) (st : LoopState) :
    (pollEvents window pending st).2.filterMap polled = pending.map some ++ [none] := by
  induction pending generalizing st with
  | nil => simp [pollEvents, polled]
  | cons e es ih =>
    simp only [pollEvents, List.filterMap_cons, polled, List.filterMap_append, ih,
      handleEvent_trace, List.map_cons, List.cons_append]
    split <;> simp [polled]

/-! ## The frame loop -/

theorem gameLoop_of_quit (env : Env) (events : List (List SDL_Event)) (st : LoopState)
    (h : st.quit = true) : gameLoop env events st = (st, []) := by
  cases events <;> simp [gameLoop, h]

theorem gameLoop_cons (env : Env) (pending : List SDL_Event) (later : List (List SDL_Event))
    (st : LoopState) (h : st.quit = false) :
    gameLoop env (pending :: later) st =
      ((gameLoop env later (pollEvents env.window pending st).1).1,
        (pollEvents env.window pending st).2 ++ drawContent env ++
          (gameLoop env later (pollEvents env.window pending st).1).2) := by
  simp [gameLoop, h]

theorem gameLoop_quit (env : Env) (events : List (List SDL_Event)) (st : LoopState) :
    (gameLoop env events st).1.quit =
      (st.quit || events.any (fun p => p.any (fun e => decide (QuitEvent e)))) := by
  induction events generalizing st with
  | nil => simp [gameLoop]
  | cons p ps ih =>
    cases h : st.quit with
    | true => simp [gameLoop_of_quit env _ st h, h]
    | false =>
      rw [gameLoop_cons env p ps st h]
      simp only [ih, pollEvents_quit, h, List.any_cons, Bool.false_or, Bool.or_assoc]

theorem gameLoop_append (env : Env) (before after : List (List SDL_Event)) (st : LoopState) :
    gameLoop env (before ++ after) st =
      ((gameLoop env after (gameLoop env before st).1).1,
        (gameLoop env before st).2 ++ (gameLoop env after (gameLoop env before st).1).2) := by
  induction before generalizing st with
  | nil => simp [gameLoop]
  | cons p ps ih =>
    cases h : st.quit with
    | true =>
      rw [gameLoop_of_quit env _ st h, gameLoop_of_quit env _ st h]
      simp [gameLoop_of_quit env _ st h]
    | false =>
      rw [List.cons_append, gameLoop_cons env p _ st h, gameLoop_cons env p ps st h, ih]
      simp

theorem gameLoop_stop (env : Env) (pending : List SDL_Event) (later : List (List SDL_Event))
    (st : LoopState) (h : st.quit = false) (hq : ∃ e ∈ pending, QuitEvent e) :
    gameLoop env (pending :: later) st =
      ((pollEvents env.window pending st).1,
        (pollEvents env.window pending st).2 ++ drawContent env) := by
  have hquit : (pollEvents env.window pending st).1.quit = true := by
    rw [pollEvents_quit]
    simpa [h] using hq
  rw [gameLoop_cons env pending later st h, gameLoop_of_quit env later _ hquit]
  simp

theorem any_quit_eq_false {events : List (List SDL_Event)}
    (h : ∀ p ∈ events, ∀ e ∈ p, ¬ QuitEvent e) :
    events.any (fun p => p.any (fun e => decide (QuitEvent e))) = false := by
  rw [Bool.eq_false_iff]
  intro hc
  simp only [List.any_eq_true, decide_eq_true_eq] at hc
  obtain ⟨p, hp, e, he, hq⟩ := hc
  exact h p hp e he hq

theorem gameLoop_polled (env : Env) (events : List (List SDL_Event)) (st : LoopState)
    (h : st.quit = false) (hn : ∀ p ∈ events, ∀ e ∈ p, ¬ QuitEvent e) :
    (gameLoop env events st).2.filterMap polled =
      (events.map (fun p => p.map some ++ [none])).flatten := by
  induction events generalizing st with
  | nil => simp [gameLoop]
  | cons p ps ih =>
    have hp : (pollEvents env.window p st).1.quit = false := by
      rw [pollEvents_quit, h]
      have hsingle : ∀ q ∈ [p], ∀ e ∈ q, ¬ QuitEvent e := by
        simpa using hn p (by simp)
      simpa using any_quit_eq_false hsingle
    rw [gameLoop_cons env p ps st h]
    simp only [List.filterMap_append, pollEvents_polled, List.map_cons, List.flatten_cons]
    rw [ih _ hp (fun q hq => hn q (List.mem_cons_of_mem _ hq))]
    simp [drawContent, polled]

theorem pollEvents_input (window : Nat) (pending : List SDL_Event) (st : LoopState) :
    ∀ c ∈ (pollEvents window pending st).2, isInputCall c = true := by
  induction pending generalizing st with
  | nil => simp [pollEvents, isInputCall]
  | cons e es ih =>
    intro c hc
    simp only [pollEvents, List.mem_cons, List.mem_append, handleEvent_trace] at hc
    rcases hc with rfl | hc | hc
    · rfl
    · split at hc
      · simp only [List.mem_singleton] at hc
        subst hc; rfl
      · simp at hc
    · exact ih _ c hc

theorem handleEvent_of_fRelease (window : Nat) (f : SDL_Event) (st : LoopState)
    (h : FRelease f) :
    handleEvent window f st =
      ({ quit := st.quit, fullScreen := !st.fullScreen },
        [Call.SDL_SetWindowFullscreen window (modeFlags (!st.fullScreen))]) := by
  have h1 := handleEvent_quit window f st
  have h2 := handleEvent_fullScreen window f st
  have h3 := handleEvent_trace window f st
  rw [if_pos h] at h2 h3
  simp only [not_quitEvent_of_fRelease h, decide_False, Bool.or_false] at h1
  rcases hh : handleEvent window f st with ⟨⟨q, fs⟩, t⟩
  rw [hh] at h1 h2 h3
  simp only at h1 h2 h3
  subst h1 h2 h3
  rfl

theorem main_of_ok (env : Env) (events : List (List SDL_Event))
    (hw : env.window ≠ 0) (hg : env.gladLoadGLLoader ≠ 0) :
    main env events =
      { trace := startup env ++
          [Call.SDL_GL_CreateContext env.window, Call.gladLoadGLLoader] ++
          loaderReport env ++ shaderSetup env ++ geometrySetup env ++
          (gameLoop env events { quit := false, fullScreen := false }).2 ++
          (if (gameLoop env events { quit := false, fullScreen := false }).1.quit
            then cleanUp env else []),
        exit := if (gameLoop env events { quit := false, fullScreen := false }).1.quit
          then some 0 else none } := by
  unfold main
  rw [if_neg hw, if_pos hg]
  split <;> simp_all

/-! ## The claims about the event handling -/

/-- C4: starting a polling pass with `quit` false, `quit` is true after the pass
exactly when the pending events contain an `SDL_QUIT` event or an `SDL_KEYUP`
event for Escape; and when the frame loop meets such a pass after passes
without one, main returns 0, the later passes are not run, and the results of
`SDL_PollEvent` in the trace are exactly the events of the passes up to that
one, each pass closed by one empty poll. -/
theorem quit_iff_quit_event (env : Env) :
    (∀ (pending : List SDL_Event) (st : LoopState), st.quit = false →
      ((pollEvents env.window pending st).1.quit = true ↔
        ∃ e ∈ pending, e.type = SDL_QUIT ∨ (e.type = SDL_KEYUP ∧ e.sym = SDLK_ESCAPE))) ∧
    (∀ (before : List (List SDL_Event)) (pending : List SDL_Event)
      (later : List (List SDL_Event)),
      env.window ≠ 0 → env.gladLoadGLLoader ≠ 0 →
      (∀ p ∈ before, ∀ e ∈ p, ¬ QuitEvent e) → (∃ e ∈ pending, QuitEvent e) →
        main env (before ++ pending :: later) = main env (before ++ [pending]) ∧
        (main env (before ++ pending :: later)).exit = some 0 ∧
        (main env (before ++ pending :: later)).trace.filterMap polled =
          ((before ++ [pending]).map (fun p => p.map some ++ [none])).flatten) := by
  refine ⟨?_, ?_⟩
  · intro pending st h
    rw [pollEvents_quit, h]
    simp [QuitEvent]
  · intro before pending later hw hg hn hq
    have h0 : (gameLoop env before { quit := false, fullScreen := false }).1.quit = false := by
      rw [gameLoop_quit, any_quit_eq_false hn]; rfl
    have hstop : ∀ l, gameLoop env (before ++ pending :: l) { quit := false, fullScreen := false } =
        ((pollEvents env.window pending
            (gameLoop env before { quit := false, fullScreen := false }).1).1,
          (gameLoop env before { quit := false, fullScreen := false }).2 ++
            ((pollEvents env.window pending
              (gameLoop env before { quit := false, fullScreen := false }).1).2 ++
              drawContent env)) := by
      intro l
      rw [gameLoop_append, gameLoop_stop env pending l _ h0 hq]
    have hquit : (pollEvents env.window pending
        (gameLoop env before { quit := false, fullScreen := false }).1).1.quit = true := by
      rw [pollEvents_quit]
      simpa [h0] using hq
    refine ⟨?_, ?_, ?_⟩
    · rw [main_of_ok env _ hw hg, main_of_ok env _ hw hg, hstop later, hstop []]
    · rw [main_of_ok env _ hw hg, hstop later]
      simp [hquit]
    · have hbp := gameLoop_polled env before { quit := false, fullScreen := false } rfl hn
      rw [main_of_ok env _ hw hg, hstop later]
      simp only [hquit, if_true, List.filterMap_append, hbp,
        pollEvents_polled, List.map_append, List.flatten_append, List.map_cons, List.map_nil,
        List.flatten_cons, List.flatten_nil]
      simp [startup, loaderReport, shaderSetup, loadShader, geometrySetup, drawContent, cleanUp,
        polled]
      split <;> split <;> simp [polled]

/-- Witness for C4: one pass holding a key press of Escape, then one pass holding
a release of Escape, followed by two passes that are never run. -/
theorem quit_iff_quit_event_witness :
    main sampleEnv ([[escapePress]] ++ [escapeRelease] :: [[], []]) =
      main sampleEnv ([[escapePress]] ++ [[escapeRelease]]) ∧
    (main sampleEnv ([[escapePress]] ++ [escapeRelease] :: [[], []])).exit = some 0 ∧
    (main sampleEnv ([[escapePress]] ++ [escapeRelease] :: [[], []])).trace.filterMap polled =
      (([[escapePress]] ++ [[escapeRelease]]).map (fun p => p.map some ++ [none])).flatten :=
  (quit_iff_quit_event sampleEnv).2 [[escapePress]] [escapeRelease] [[], []]
    (by decide) (by decide) (by decide) (by decide)

/-- C5: handling one release of the F key negates `fullScreen`, makes exactly one
call of `SDL_SetWindowFullscreen`, asking for full screen when the new flag is
true and for a window otherwise, and leaves `quit` as it was; a polling pass of
two F releases ends in the state it started from, the second request asking for
the mode of the original flag; an event that is not an F release leaves
`fullScreen` unchanged and makes no request. -/
theorem f_release_toggles (window : Nat) (st : LoopState) :
    (∀ f : SDL_Event, f.type = SDL_KEYUP ∧ f.sym = SDLK_f →
      handleEvent window f st =
        ({ quit := st.quit, fullScreen := !st.fullScreen },
          [Call.SDL_SetWindowFullscreen window (modeFlags (!st.fullScreen))])) ∧
    (∀ f g : SDL_Event, f.type = SDL_KEYUP ∧ f.sym = SDLK_f →
      g.type = SDL_KEYUP ∧ g.sym = SDLK_f →
      pollEvents window [f, g] st =
        (st,
          [ Call.SDL_PollEvent (some f),
            Call.SDL_SetWindowFullscreen window (modeFlags (!st.fullScreen)),
            Call.SDL_PollEvent (some g),
            Call.SDL_SetWindowFullscreen window (modeFlags st.fullScreen),
            Call.SDL_PollEvent none ])) ∧
    (∀ e : SDL_Event, ¬ (e.type = SDL_KEYUP ∧ e.sym = SDLK_f) →
      (handleEvent window e st).1.fullScreen = st.fullScreen ∧
      (handleEvent window e st).2 = []) ∧
    modeFlags true = SDL_WINDOW_FULLSCREEN ∧ modeFlags false = 0 ∧
    SDL_WINDOW_FULLSCREEN ≠ 0 := by
  refine ⟨fun f hf => handleEvent_of_fRelease window f st hf, ?_, ?_, rfl, rfl, by decide⟩
  · intro f g hf hg
    simp only [pollEvents, handleEvent_of_fRelease window f st hf,
      handleEvent_of_fRelease window g _ hg, Bool.not_not]
    rfl
  · intro e he
    have he2 : ¬ FRelease e := he
    rw [handleEvent_fullScreen, handleEvent_trace, if_neg he2, if_neg he2]
    exact ⟨rfl, rfl⟩

/-- Witness for C5: in a windowed, running state one F release asks for full
screen, two F releases come back to the windowed state, and a release of
Escape changes nothing about the mode. -/
theorem f_release_toggles_witness :
    handleEvent 7 fRelease { quit := false, fullScreen := false } =
      ({ quit := false, fullScreen := true }, [Call.SDL_SetWindowFullscreen 7 1]) ∧
    pollEvents 7 [fRelease, fRelease] { quit := false, fullScreen := false } =
      ({ quit := false, fullScreen := false },
        [ Call.SDL_PollEvent (some fRelease), Call.SDL_SetWindowFullscreen 7 1,
          Call.SDL_PollEvent (some fRelease), Call.SDL_SetWindowFullscreen 7 0,
          Call.SDL_PollEvent none ]) ∧
    ((handleEvent 7 escapeRelease { quit := false, fullScreen := false }).1.fullScreen = false ∧
      (handleEvent 7 escapeRelease { quit := false, fullScreen := false }).2 = []) :=
  ⟨(f_release_toggles 7 { quit := false, fullScreen := false }).1 fRelease (by decide),
    (f_release_toggles 7 { quit := false, fullScreen := false }).2.1 fRelease fRelease
      (by decide) (by decide),
    (f_release_toggles 7 { quit := false, fullScreen := false }).2.2.1 escapeRelease
      (by decide)⟩

/-- C10: one polling pass delivers every pending event, in order, and then one
empty poll, and its final state is the handler folded over all the events; an F
release that follows a quitting event in the same pass is still delivered,
still negates `fullScreen` and still requests the mode switch, and the events
after it are still handled; the iteration whose pass sets `quit` still makes the
six drawing calls once, and the loop then ends without running a later pass. -/
theorem polling_drains_queue (env : Env) :
    (∀ (pending : List SDL_Event) (st : LoopState),
      (pollEvents env.window pending st).2.filterMap polled = pending.map some ++ [none] ∧
      (pollEvents env.window pending st).1 =
        pending.foldl (fun s e => (handleEvent env.window e s).1) st) ∧
    (∀ (before after : List SDL_Event) (q f : SDL_Event) (st : LoopState),
      (q.type = SDL_QUIT ∨ (q.type = SDL_KEYUP ∧ q.sym = SDLK_ESCAPE)) →
      (f.type = SDL_KEYUP ∧ f.sym = SDLK_f) →
        (pollEvents env.window (before ++ [q]) st).1.quit = true ∧
        pollEvents env.window (before ++ q :: f :: after) st =
          ((pollEvents env.window after
              { quit := true,
                fullScreen := !(pollEvents env.window (before ++ [q]) st).1.fullScreen }).1,
            (pollEvents env.window (before ++ [q]) st).2.dropLast ++
              [ Call.SDL_PollEvent (some f),
                Call.SDL_SetWindowFullscreen env.window
                  (modeFlags (!(pollEvents env.window (before ++ [q]) st).1.fullScreen)) ] ++
              (pollEvents env.window after
                { quit := true,
                  fullScreen :=
                    !(pollEvents env.window (before ++ [q]) st).1.fullScreen }).2)) ∧
    (∀ (pending : List SDL_Event) (later : List (List SDL_Event)) (st : LoopState),
      st.quit = false → (pollEvents env.window pending st).1.quit = true →
        gameLoop env (pending :: later) st =
          ((pollEvents env.window pending st).1,
            (pollEvents env.window pending st).2 ++
              [ Call.glClearColor (13421773 / 67108864) (13421773 / 33554432) (13421773 / 16777216) 1,
                Call.glClear GLenum.GL_COLOR_BUFFER_BIT,
                Call.glUseProgram env.shaderProgram,
                Call.glBindVertexArray env.vao,
                Call.glDrawArrays GLenum.GL_TRIANGLES 0 3,
                Call.SDL_GL_SwapWindow env.window ])) := by
  refine ⟨fun pending st => ⟨pollEvents_polled _ _ _, pollEvents_state _ _ _⟩, ?_, ?_⟩
  · intro before after q f st hq hf
    have hquit : (pollEvents env.window (before ++ [q]) st).1.quit = true := by
      rw [pollEvents_quit]
      have : QuitEvent q := hq
      simp [this]
    refine ⟨hquit, ?_⟩
    have hsplit : before ++ q :: f :: after = (before ++ [q]) ++ (f :: after) := by simp
    rw [hsplit, pollEvents_append]
    simp only [pollEvents, handleEvent_of_fRelease env.window f _ hf, hquit]
    simp
  · intro pending later st h hq
    rw [gameLoop_cons env pending later st h, gameLoop_of_quit env later _ hq, drawContent_eq]
    simp

/-- Witness for C10: the window is closed and, in the same pass, F is released
and then Escape is released. -/
theorem polling_drains_queue_witness :
    ((pollEvents sampleEnv.window ([] ++ [closeEvent])
        { quit := false, fullScreen := false }).1.quit = true ∧
      pollEvents sampleEnv.window ([] ++ closeEvent :: fRelease :: [escapeRelease])
          { quit := false, fullScreen := false } =
        ((pollEvents sampleEnv.window [escapeRelease]
            { quit := true,
              fullScreen := !(pollEvents sampleEnv.window ([] ++ [closeEvent])
                { quit := false, fullScreen := false }).1.fullScreen }).1,
          (pollEvents sampleEnv.window ([] ++ [closeEvent])
              { quit := false, fullScreen := false }).2.dropLast ++
            [ Call.SDL_PollEvent (some fRelease),
              Call.SDL_SetWindowFullscreen sampleEnv.window
                (modeFlags (!(pollEvents sampleEnv.window ([] ++ [closeEvent])
                  { quit := false, fullScreen := false }).1.fullScreen)) ] ++
            (pollEvents sampleEnv.window [escapeRelease]
              { quit := true,
                fullScreen := !(pollEvents sampleEnv.window ([] ++ [closeEvent])
                  { quit := false, fullScreen := false }).1.fullScreen }).2)) ∧
    gameLoop sampleEnv ([closeEvent, fRelease] :: [[fRelease]])
        { quit := false, fullScreen := false } =
      ((pollEvents sampleEnv.window [closeEvent, fRelease]
          { quit := false, fullScreen := false }).1,
        (pollEvents sampleEnv.window [closeEvent, fRelease]
            { quit := false, fullScreen := false }).2 ++
          [ Call.glClearColor (13421773 / 67108864) (13421773 / 33554432) (13421773 / 16777216) 1,
            Call.glClear GLenum.GL_COLOR_BUFFER_BIT,
            Call.glUseProgram sampleEnv.shaderProgram,
            Call.glBindVertexArray sampleEnv.vao,
            Call.glDrawArrays GLenum.GL_TRIANGLES 0 3,
            Call.SDL_GL_SwapWindow sampleEnv.window ]) :=
  ⟨(polling_drains_queue sampleEnv).2.1 [] [escapeRelease] closeEvent fRelease
      { quit := false, fullScreen := false } (by decide) (by decide),
    (polling_drains_queue sampleEnv).2.2 [closeEvent, fRelease] [[fRelease]]
      { quit := false, fullScreen := false } rfl (by decide)⟩

/-! ## The claims about the frames -/

theorem gameLoop_frames (env : Env) (events : List (List SDL_Event)) (st : LoopState) :
    ∃ frames : List (List Call),
      (gameLoop env events st).2 = (frames.map (fun p => p ++ drawContent env)).flatten ∧
      ∀ p ∈ frames, ∀ c ∈ p, isInputCall c = true := by
  induction events generalizing st with
  | nil => exact ⟨[], by simp [gameLoop], by simp⟩
  | cons p ps ih =>
    cases h : st.quit with
    | true => exact ⟨[], by simp [gameLoop_of_quit env _ st h], by simp⟩
    | false =>
      obtain ⟨frames, hf, hin⟩ := ih (pollEvents env.window p st).1
      refine ⟨(pollEvents env.window p st).2 :: frames, ?_, ?_⟩
      · rw [gameLoop_cons env p ps st h, hf]
        simp
      · intro q hq c hc
        rcases List.mem_cons.1 hq with rfl | hq
        · exact pollEvents_input _ _ _ c hc
        · exact hin q hq c hc

/-- C1: main returns `EXIT_FAILURE` when `SDL_CreateWindow` returns null; returns
-1 when the window exists and `gladLoadGLLoader` returns 0; returns 0 when both
succeed and some polling pass of the event stream holds a quitting event; and
has not returned when both succeed and the recorded stream holds none.  No
other outcome exists. -/
theorem main_exit_status (env : Env) (events : List (List SDL_Event)) :
    (env.window = 0 → (main env events).exit = some env.EXIT_FAILURE) ∧
    (env.window ≠ 0 → env.gladLoadGLLoader = 0 → (main env events).exit = some (-1)) ∧
    (env.window ≠ 0 → env.gladLoadGLLoader ≠ 0 →
      (∃ p ∈ events, ∃ e ∈ p, e.type = SDL_QUIT ∨ (e.type = SDL_KEYUP ∧ e.sym = SDLK_ESCAPE)) →
      (main env events).exit = some 0) ∧
    (env.window ≠ 0 → env.gladLoadGLLoader ≠ 0 →
      (¬ ∃ p ∈ events, ∃ e ∈ p, e.type = SDL_QUIT ∨ (e.type = SDL_KEYUP ∧ e.sym = SDLK_ESCAPE)) →
      (main env events).exit = none) ∧
    ((main env events).exit = some env.EXIT_FAILURE ∨ (main env events).exit = some (-1) ∨
      (main env events).exit = some 0 ∨ (main env events).exit = none) := by
  have hloop : (gameLoop env events { quit := false, fullScreen := false }).1.quit = true ↔
      ∃ p ∈ events, ∃ e ∈ p, e.type = SDL_QUIT ∨ (e.type = SDL_KEYUP ∧ e.sym = SDLK_ESCAPE) := by
    rw [gameLoop_quit]
    simp [QuitEvent]
  refine ⟨?_, ?_, ?_, ?_, ?_⟩
  · intro hw
    simp [main, hw]
  · intro hw hg
    simp [main, hw, hg]
  · intro hw hg hq
    rw [main_of_ok env events hw hg]
    simp [hloop.2 hq]
  · intro hw hg hq
    rw [main_of_ok env events hw hg]
    have : ¬ (gameLoop env events { quit := false, fullScreen := false }).1.quit = true :=
      fun hc => hq (hloop.1 hc)
    simp [this]
  · by_cases hw : env.window = 0
    · left; simp [main, hw]
    · by_cases hg : env.gladLoadGLLoader = 0
      · right; left; simp [main, hw, hg]
      · rw [main_of_ok env events hw hg]
        by_cases hq : (gameLoop env events { quit := false, fullScreen := false }).1.quit = true
        · right; right; left; simp [hq]
        · right; right; right; simp [hq]

/-- Witness for C1: no window; a window but no loader; both and the window is
closed in the second polling pass; both and no quitting event so far. -/
theorem main_exit_status_witness :
    (main { sampleEnv with window := 0 } [[closeEvent]]).exit = some 1 ∧
    (main { sampleEnv with gladLoadGLLoader := 0 } [[closeEvent]]).exit = some (-1) ∧
    (main sampleEnv [[fRelease], [closeEvent]]).exit = some 0 ∧
    (main sampleEnv [[fRelease], [escapePress]]).exit = none :=
  ⟨(main_exit_status { sampleEnv with window := 0 } [[closeEvent]]).1 rfl,
    (main_exit_status { sampleEnv with gladLoadGLLoader := 0 } [[closeEvent]]).2.1
      (by decide) rfl,
    (main_exit_status sampleEnv [[fRelease], [closeEvent]]).2.2.1 (by decide) (by decide)
      (by decide),
    (main_exit_status sampleEnv [[fRelease], [escapePress]]).2.2.2.1 (by decide) (by decide)
      (by decide)⟩

/-- C2: when `SDL_CreateWindow` returns null, main makes exactly two more calls,
`SDL_GetError` and a `printf` whose text is "Could not create window: ", the
error string and a newline; it returns `EXIT_FAILURE`; and the trace of the
run holds no call that creates or destroys a context, loads the graphics
functions, touches a shader, program, buffer or vertex array, clears, draws,
swaps or deletes. -/
theorem window_failure_is_fatal (env : Env) (events : List (List SDL_Event))
    (h : env.window = 0) :
    (∃ before : List Call, (main env events).trace =
      before ++
        [ Call.SDL_CreateWindow "My OpenGL Program" 100 100 800 600 SDL_WINDOW_OPENGL,
          Call.SDL_GetError,
          Call.printf ("Could not create window: " ++ env.SDL_GetError ++ "\n") ]) ∧
    (main env events).exit = some env.EXIT_FAILURE ∧
    (∀ c ∈ (main env events).trace, isGraphicsCall c = false) := by
  refine ⟨⟨(startup env).dropLast, ?_⟩, ?_, ?_⟩
  · simp [main, h, startup, screenWidth, screenHeight]
  · simp [main, h]
  · intro c hc
    simp only [main, h, if_true, startup, List.mem_append, List.mem_cons] at hc
    rcases hc with (hc | hc)
    · rcases hc with rfl | rfl | rfl | rfl | rfl | rfl | rfl | rfl | hc
      all_goals first | rfl | simp at hc
    · rcases hc with rfl | rfl | hc
      all_goals first | rfl | simp at hc

/-- Witness for C2: the sample platform, with no display and the error text
"No available video device". -/
theorem window_failure_is_fatal_witness :
    (∃ before : List Call,
      (main { sampleEnv with window := 0, SDL_GetError := "No available video device" }
        [[closeEvent]]).trace =
      before ++
        [ Call.SDL_CreateWindow "My OpenGL Program" 100 100 800 600 SDL_WINDOW_OPENGL,
          Call.SDL_GetError,
          Call.printf ("Could not create window: " ++ "No available video device" ++ "\n") ]) ∧
    (main { sampleEnv with window := 0, SDL_GetError := "No available video device" }
      [[closeEvent]]).exit = some 1 ∧
    (∀ c ∈ (main { sampleEnv with window := 0, SDL_GetError := "No available video device" }
      [[closeEvent]]).trace, isGraphicsCall c = false) :=
  window_failure_is_fatal
    { sampleEnv with window := 0, SDL_GetError := "No available video device" }
    [[closeEvent]] rfl

/-! ## The claim about shader compilation -/

theorem gameLoop_congr (env1 env2 : Env) (hw : env1.window = env2.window)
    (hp : env1.shaderProgram = env2.shaderProgram) (hv : env1.vao = env2.vao)
    (events : List (List SDL_Event)) (st : LoopState) :
    gameLoop env1 events st = gameLoop env2 events st := by
  induction events generalizing st with
  | nil => simp [gameLoop]
  | cons p ps ih =>
    simp only [gameLoop, ih, hw, drawContent, hp, hv]

theorem diagnostic_ne_empty (log : String) :
    "Shader Compile Failed. Info:\n\n" ++ log ++ "\n" ≠ "" := by
  intro h
  have := congrArg String.length h
  simp only [String.length_append] at this
  have hlen : "Shader Compile Failed. Info:\n\n".length ≠ 0 := by decide
  have h0 : ("" : String).length = 0 := by decide
  omega

/-- C3: `loadShader` always returns; it prints the diagnostic "Shader Compile
Failed. Info:", then what `glGetShaderInfoLog` called with size 512 left in the
buffer, when the status is 0 and prints nothing otherwise, and the diagnostic is
not empty.  Whatever statuses and logs are reported for the two shaders, main
goes on with the same calls: create the program, attach both shaders, bind
output 0 to `outColor`, link, set up the geometry, then the same frame loop
(whose first iteration polls and draws), and returns the same value. -/
theorem compile_failure_is_logged_only (env : Env) (events : List (List SDL_Event)) :
    (∀ (status : Int) (infoLog : Nat → String) (shaderID : Nat) (shaderSource : String),
      (status = 0 →
        Call.glGetShaderInfoLog shaderID 512 ∈ loadShader status infoLog shaderID shaderSource ∧
        (loadShader status infoLog shaderID shaderSource).filterMap printed =
          ["Shader Compile Failed. Info:\n\n" ++ infoLog 512 ++ "\n"]) ∧
      (status ≠ 0 →
        (loadShader status infoLog shaderID shaderSource).filterMap printed = []) ∧
      "Shader Compile Failed. Info:\n\n" ++ infoLog 512 ++ "\n" ≠ "") ∧
    (env.window ≠ 0 → env.gladLoadGLLoader ≠ 0 →
      ∃ (rest : List Call) (code : Option Int),
        (∀ (vertexStatus fragmentStatus : Int) (vertexInfoLog fragmentInfoLog : Nat → String),
          (main { env with vertexStatus := vertexStatus, vertexInfoLog := vertexInfoLog,
                           fragmentStatus := fragmentStatus,
                           fragmentInfoLog := fragmentInfoLog } events).trace =
            startup env ++ [Call.SDL_GL_CreateContext env.window, Call.gladLoadGLLoader] ++
            loaderReport env ++
            [Call.glCreateShader GLenum.GL_VERTEX_SHADER] ++
            loadShader vertexStatus vertexInfoLog env.vertexShader vertexSource ++
            [Call.glCreateShader GLenum.GL_FRAGMENT_SHADER] ++
            loadShader fragmentStatus fragmentInfoLog env.fragmentShader fragmentSource ++
            [ Call.glCreateProgram,
              Call.glAttachShader env.shaderProgram env.vertexShader,
              Call.glAttachShader env.shaderProgram env.fragmentShader,
              Call.glBindFragDataLocation env.shaderProgram 0 "outColor",
              Call.glLinkProgram env.shaderProgram ] ++
            rest ∧
          (main { env with vertexStatus := vertexStatus, vertexInfoLog := vertexInfoLog,
                           fragmentStatus := fragmentStatus,
                           fragmentInfoLog := fragmentInfoLog } events).exit = code) ∧
        (∀ (pending : List SDL_Event) (later : List (List SDL_Event)),
          events = pending :: later →
          ∃ tail : List Call,
            rest = geometrySetup env ++
              (pollEvents env.window pending { quit := false, fullScreen := false }).2 ++
              [ Call.glClearColor (13421773 / 67108864) (13421773 / 33554432) (13421773 / 16777216) 1,
                Call.glClear GLenum.GL_COLOR_BUFFER_BIT,
                Call.glUseProgram env.shaderProgram,
                Call.glBindVertexArray env.vao,
                Call.glDrawArrays GLenum.GL_TRIANGLES 0 3,
                Call.SDL_GL_SwapWindow env.window ] ++ tail)) := by
  refine ⟨?_, ?_⟩
  · intro status infoLog shaderID shaderSource
    refine ⟨?_, ?_, diagnostic_ne_empty _⟩
    · intro h
      simp [loadShader, h, printed]
    · intro h
      simp [loadShader, h, printed]
  · intro hw hg
    refine ⟨geometrySetup env ++ (gameLoop env events { quit := false, fullScreen := false }).2 ++
        (if (gameLoop env events { quit := false, fullScreen := false }).1.quit
          then cleanUp env else []),
      if (gameLoop env events { quit := false, fullScreen := false }).1.quit
        then some 0 else none, ?_, ?_⟩
    · intro vs fs vl fl
      have hloop := gameLoop_congr
        { env with vertexStatus := vs, vertexInfoLog := vl,
                   fragmentStatus := fs, fragmentInfoLog := fl } env rfl rfl rfl events
        { quit := false, fullScreen := false }
      have hm := main_of_ok
        { env with vertexStatus := vs, vertexInfoLog := vl,
                   fragmentStatus := fs, fragmentInfoLog := fl } events hw hg
      rw [hm, hloop]
      refine ⟨?_, rfl⟩
      simp [shaderSetup, startup, loaderReport, geometrySetup, cleanUp]
    · intro pending later he
      subst he
      rw [gameLoop_cons env pending later _ rfl]
      rw [drawContent_eq]
      exact ⟨_, by simp; rfl⟩

/-- Witness for C3: both shaders fail to compile on the sample platform, and the
window is closed in the first polling pass. -/
theorem compile_failure_is_logged_only_witness :
    ((loadShader 0 (fun _ => "0:1: syntax error") 1 vertexSource).filterMap printed =
        ["Shader Compile Failed. Info:\n\n" ++ "0:1: syntax error" ++ "\n"]) ∧
    ((loadShader 1 (fun _ => "") 1 vertexSource).filterMap printed = []) ∧
    (∃ (rest : List Call) (code : Option Int),
      (∀ (vertexStatus fragmentStatus : Int) (vertexInfoLog fragmentInfoLog : Nat → String),
        (main { sampleEnv with vertexStatus := vertexStatus, vertexInfoLog := vertexInfoLog,
                               fragmentStatus := fragmentStatus,
                               fragmentInfoLog := fragmentInfoLog } [[closeEvent]]).trace =
          startup sampleEnv ++
          [Call.SDL_GL_CreateContext sampleEnv.window, Call.gladLoadGLLoader] ++
          loaderReport sampleEnv ++
          [Call.glCreateShader GLenum.GL_VERTEX_SHADER] ++
          loadShader vertexStatus vertexInfoLog sampleEnv.vertexShader vertexSource ++
          [Call.glCreateShader GLenum.GL_FRAGMENT_SHADER] ++
          loadShader fragmentStatus fragmentInfoLog sampleEnv.fragmentShader fragmentSource ++
          [ Call.glCreateProgram,
            Call.glAttachShader sampleEnv.shaderProgram sampleEnv.vertexShader,
            Call.glAttachShader sampleEnv.shaderProgram sampleEnv.fragmentShader,
            Call.glBindFragDataLocation sampleEnv.shaderProgram 0 "outColor",
            Call.glLinkProgram sampleEnv.shaderProgram ] ++
          rest ∧
        (main { sampleEnv with vertexStatus := vertexStatus, vertexInfoLog := vertexInfoLog,
                               fragmentStatus := fragmentStatus,
                               fragmentInfoLog := fragmentInfoLog } [[closeEvent]]).exit = code) ∧
      (∀ (pending : List SDL_Event) (later : List (List SDL_Event)),
        [[closeEvent]] = pending :: later →
        ∃ tail : List Call,
          rest = geometrySetup sampleEnv ++
            (pollEvents sampleEnv.window pending { quit := false, fullScreen := false }).2 ++
            [ Call.glClearColor (13421773 / 67108864) (13421773 / 33554432) (13421773 / 16777216) 1,
              Call.glClear GLenum.GL_COLOR_BUFFER_BIT,
              Call.glUseProgram sampleEnv.shaderProgram,
              Call.glBindVertexArray sampleEnv.vao,
              Call.glDrawArrays GLenum.GL_TRIANGLES 0 3,
              Call.SDL_GL_SwapWindow sampleEnv.window ] ++ tail)) :=
  ⟨(((compile_failure_is_logged_only sampleEnv [[closeEvent]]).1 0
      (fun _ => "0:1: syntax error") 1 vertexSource).1 rfl).2,
    ((compile_failure_is_logged_only sampleEnv [[closeEvent]]).1 1
      (fun _ => "") 1 vertexSource).2.1 (by decide),
    (compile_failure_is_logged_only sampleEnv [[closeEvent]]).2 (by decide) (by decide)⟩

/-! ## The claims about teardown -/

theorem gameLoop_calls (env : Env) (events : List (List SDL_Event)) (st : LoopState) :
    ∀ c ∈ (gameLoop env events st).2, isInputCall c = true ∨ c ∈ drawContent env := by
  obtain ⟨frames, hf, hin⟩ := gameLoop_frames env events st
  intro c hc
  rw [hf] at hc
  simp only [List.mem_flatten, List.mem_map] at hc
  obtain ⟨l, ⟨p, hp, rfl⟩, hc⟩ := hc
  rcases List.mem_append.1 hc with h | h
  · exact Or.inl (hin p hp c h)
  · exact Or.inr h

theorem gameLoop_not_release (env : Env) (events : List (List SDL_Event)) (st : LoopState) :
    ∀ c ∈ (gameLoop env events st).2, isReleaseCall c = false := by
  intro c hc
  rcases gameLoop_calls env events st c hc with h | h
  · cases c <;> simp_all [isInputCall, isReleaseCall]
  · simp only [drawContent, List.mem_cons, List.mem_singleton, List.not_mem_nil, or_false] at h
    rcases h with rfl | rfl | rfl | rfl | rfl | rfl <;> rfl

theorem setup_not_release (env : Env) :
    ∀ c ∈ startup env ++ [Call.SDL_GL_CreateContext env.window, Call.gladLoadGLLoader] ++
        loaderReport env ++ shaderSetup env ++ geometrySetup env,
      isReleaseCall c = false := by
  intro c hc
  simp only [startup, loaderReport, shaderSetup, loadShader, geometrySetup, List.mem_append,
    List.mem_cons, List.mem_singleton, List.not_mem_nil, or_false] at hc
  rcases hc with (((hc | hc) | hc) | hc) | hc
  · rcases hc with rfl | rfl | rfl | rfl | rfl | rfl | rfl | rfl <;> rfl
  · rcases hc with rfl | rfl <;> rfl
  · rcases hc with rfl | rfl | rfl | rfl | rfl | rfl | rfl <;> rfl
  · rcases hc with (((hc | hc) | hc) | hc) | hc
    · subst hc; rfl
    · rcases hc with (rfl | rfl | rfl) | hc
      · rfl
      · rfl
      · rfl
      · split at hc
        · simp only [List.mem_cons, List.mem_singleton, List.not_mem_nil, or_false] at hc
          rcases hc with rfl | rfl <;> rfl
        · simp at hc
    · subst hc; rfl
    · rcases hc with (rfl | rfl | rfl) | hc
      · rfl
      · rfl
      · rfl
      · split at hc
        · simp only [List.mem_cons, List.mem_singleton, List.not_mem_nil, or_false] at hc
          rcases hc with rfl | rfl <;> rfl
        · simp at hc
    · rcases hc with rfl | rfl | rfl | rfl | rfl <;> rfl
  · rcases hc with rfl | rfl | rfl | rfl | rfl | rfl | rfl | rfl | rfl | rfl | rfl | rfl <;> rfl

theorem main_of_quit (env : Env) (events : List (List SDL_Event))
    (hw : env.window ≠ 0) (hg : env.gladLoadGLLoader ≠ 0)
    (hq : ∃ p ∈ events, ∃ e ∈ p, QuitEvent e) :
    (main env events).trace =
      (startup env ++ [Call.SDL_GL_CreateContext env.window, Call.gladLoadGLLoader] ++
        loaderReport env ++ shaderSetup env ++ geometrySetup env) ++
      ((gameLoop env events { quit := false, fullScreen := false }).2 ++ cleanUp env) := by
  have hquit : (gameLoop env events { quit := false, fullScreen := false }).1.quit = true := by
    rw [gameLoop_quit]
    simpa using hq
  rw [main_of_ok env events hw hg]
  simp [hquit]

/-- C8: on a run that leaves the frame loop by quit the trace ends with
`glDeleteProgram(shaderProgram)`, `glDeleteShader(fragmentShader)`,
`glDeleteShader(vertexShader)`, `glDeleteBuffers(1, vbo)`,
`glDeleteVertexArrays(1, vao)`, `SDL_GL_DeleteContext(context)`, `SDL_Quit()`,
in this order with nothing in between; no release call occurs before them, so
the release calls of the whole run are these seven, once each; and the only
call after the destruction of the context, `SDL_Quit`, is not a graphics
call. -/
theorem teardown_sequence (env : Env) (events : List (List SDL_Event))
    (hw : env.window ≠ 0) (hg : env.gladLoadGLLoader ≠ 0)
    (hq : ∃ p ∈ events, ∃ e ∈ p,
      e.type = SDL_QUIT ∨ (e.type = SDL_KEYUP ∧ e.sym = SDLK_ESCAPE)) :
    (∃ before : List Call,
      (main env events).trace =
        before ++
          [ Call.glDeleteProgram env.shaderProgram,
            Call.glDeleteShader env.fragmentShader,
            Call.glDeleteShader env.vertexShader,
            Call.glDeleteBuffers 1 env.vbo,
            Call.glDeleteVertexArrays 1 env.vao,
            Call.SDL_GL_DeleteContext env.context,
            Call.SDL_Quit ] ∧
      ∀ c ∈ before, isReleaseCall c = false) ∧
    (main env events).trace.filter isReleaseCall =
      [ Call.glDeleteProgram env.shaderProgram,
        Call.glDeleteShader env.fragmentShader,
        Call.glDeleteShader env.vertexShader,
        Call.glDeleteBuffers 1 env.vbo,
        Call.glDeleteVertexArrays 1 env.vao,
        Call.SDL_GL_DeleteContext env.context,
        Call.SDL_Quit ] ∧
    isGraphicsCall Call.SDL_Quit = false := by
  have hbefore : ∀ c ∈ (startup env ++
      [Call.SDL_GL_CreateContext env.window, Call.gladLoadGLLoader] ++
      loaderReport env ++ shaderSetup env ++ geometrySetup env) ++
      (gameLoop env events { quit := false, fullScreen := false }).2,
      isReleaseCall c = false := by
    intro c hc
    rcases List.mem_append.1 hc with h | h
    · exact setup_not_release env c h
    · exact gameLoop_not_release env events _ c h
  have htrace := main_of_quit env events hw hg hq
  rw [← List.append_assoc] at htrace
  refine ⟨⟨_, htrace, hbefore⟩, ?_, rfl⟩
  rw [htrace, List.filter_append]
  have hnil : List.filter isReleaseCall ((startup env ++
      [Call.SDL_GL_CreateContext env.window, Call.gladLoadGLLoader] ++
      loaderReport env ++ shaderSetup env ++ geometrySetup env) ++
      (gameLoop env events { quit := false, fullScreen := false }).2) = [] := by
    rw [List.filter_eq_nil_iff]
    intro c hc
    simp [hbefore c hc]
  rw [hnil]
  rfl

/-- Witness for C8: the sample platform, the window being closed in the second
polling pass. -/
theorem teardown_sequence_witness :
    (∃ before : List Call,
      (main sampleEnv [[fRelease], [closeEvent]]).trace =
        before ++
          [ Call.glDeleteProgram sampleEnv.shaderProgram,
            Call.glDeleteShader sampleEnv.fragmentShader,
            Call.glDeleteShader sampleEnv.vertexShader,
            Call.glDeleteBuffers 1 sampleEnv.vbo,
            Call.glDeleteVertexArrays 1 sampleEnv.vao,
            Call.SDL_GL_DeleteContext sampleEnv.context,
            Call.SDL_Quit ] ∧
      ∀ c ∈ before, isReleaseCall c = false) ∧
    (main sampleEnv [[fRelease], [closeEvent]]).trace.filter isReleaseCall =
      [ Call.glDeleteProgram sampleEnv.shaderProgram,
        Call.glDeleteShader sampleEnv.fragmentShader,
        Call.glDeleteShader sampleEnv.vertexShader,
        Call.glDeleteBuffers 1 sampleEnv.vbo,
        Call.glDeleteVertexArrays 1 sampleEnv.vao,
        Call.SDL_GL_DeleteContext sampleEnv.context,
        Call.SDL_Quit ] ∧
    isGraphicsCall Call.SDL_Quit = false :=
  teardown_sequence sampleEnv [[fRelease], [closeEvent]] (by decide) (by decide) (by decide)

/-! ## The claim about the vertex data -/

/-- C6: the array uploaded by `glBufferData` has 15 floats (60 bytes); the two
`glVertexAttribPointer` calls declare position as 2 `GL_FLOAT` components at
offset 0 and inColor as 3 at offset 2 floats, both with stride 5 floats; read through
this layout, vertices 0, 1, 2 are (0, 0.5) red, (0.5, -0.5) green and
(-0.5, -0.5) blue; every component read for the three vertices drawn lies
inside the buffer, and the bytes of a vertex's position end where the bytes of
its colour start. -/
theorem vertex_layout (env : Env) :
    vertices.length = 15 ∧
    (geometrySetup env).filterMap uploaded = [(15 * sizeofFloat, vertices)] ∧
    (geometrySetup env).filterMap attribPointer =
      [ (env.posAttrib, 2, GLenum.GL_FLOAT, 5 * sizeofFloat, 0),
        (env.colAttrib, 3, GLenum.GL_FLOAT, 5 * sizeofFloat, 2 * sizeofFloat) ] ∧
    fetchAttrib vertices 2 (5 * sizeofFloat) 0 0 = [some 0, some 0.5] ∧
    fetchAttrib vertices 3 (5 * sizeofFloat) (2 * sizeofFloat) 0 = [some 1, some 0, some 0] ∧
    fetchAttrib vertices 2 (5 * sizeofFloat) 0 1 = [some 0.5, some (-0.5)] ∧
    fetchAttrib vertices 3 (5 * sizeofFloat) (2 * sizeofFloat) 1 = [some 0, some 1, some 0] ∧
    fetchAttrib vertices 2 (5 * sizeofFloat) 0 2 = [some (-0.5), some (-0.5)] ∧
    fetchAttrib vertices 3 (5 * sizeofFloat) (2 * sizeofFloat) 2 = [some 0, some 0, some 1] ∧
    (∀ i j : Nat, i < 3 → j < 2 →
      componentByte (5 * sizeofFloat) 0 i j + sizeofFloat ≤ 15 * sizeofFloat) ∧
    (∀ i j : Nat, i < 3 → j < 3 →
      componentByte (5 * sizeofFloat) (2 * sizeofFloat) i j + sizeofFloat ≤ 15 * sizeofFloat) ∧
    (∀ i j k : Nat, j < 2 → k < 3 →
      componentByte (5 * sizeofFloat) 0 i j + sizeofFloat ≤
        componentByte (5 * sizeofFloat) (2 * sizeofFloat) i k) := by
  refine ⟨rfl, ?_, ?_, ?_, ?_, ?_, ?_, ?_, ?_, ?_, ?_, ?_⟩
  · simp [geometrySetup, uploaded, vertices]
  · simp [geometrySetup, attribPointer]
  · simp [fetchAttrib, readFloat, vertices, componentByte, sizeofFloat, List.range_succ]
    norm_num
  · simp [fetchAttrib, readFloat, vertices, componentByte, sizeofFloat, List.range_succ]
    norm_num
  · simp [fetchAttrib, readFloat, vertices, componentByte, sizeofFloat, List.range_succ]
  · simp [fetchAttrib, readFloat, vertices, componentByte, sizeofFloat, List.range_succ]
    norm_num
  · simp [fetchAttrib, readFloat, vertices, componentByte, sizeofFloat, List.range_succ]
  · simp [fetchAttrib, readFloat, vertices, componentByte, sizeofFloat, List.range_succ]
    norm_num
  · intro i j hi hj
    simp only [componentByte, sizeofFloat]
    omega
  · intro i j hi hj
    simp only [componentByte, sizeofFloat]
    omega
  · intro i j k hj hk
    simp only [componentByte, sizeofFloat]
    omega

/-- Witness for C6: the second component of the colour of the last vertex drawn. -/
theorem vertex_layout_witness :
    componentByte (5 * sizeofFloat) (2 * sizeofFloat) 2 1 + sizeofFloat ≤ 15 * sizeofFloat ∧
    componentByte (5 * sizeofFloat) 0 2 1 + sizeofFloat ≤
      componentByte (5 * sizeofFloat) (2 * sizeofFloat) 2 0 ∧
    componentByte (5 * sizeofFloat) 0 2 1 + sizeofFloat ≤ 15 * sizeofFloat :=
  ⟨(vertex_layout sampleEnv).2.2.2.2.2.2.2.2.2.2.1 2 1 (by decide) (by decide),
    (vertex_layout sampleEnv).2.2.2.2.2.2.2.2.2.2.2 2 1 0 (by decide) (by decide),
    (vertex_layout sampleEnv).2.2.2.2.2.2.2.2.2.1 2 1 (by decide) (by decide)⟩

/-- The run of C9 read on the sample platform: the vertex buffer is created
after the shader program and yet released after it. -/
theorem reverse_release_order_fails :
    createdBefore sampleEnv (main sampleEnv [[closeEvent]]).trace
        Resource.shaderProgram Resource.vbo ∧
      ¬ releasedBefore sampleEnv (main sampleEnv [[closeEvent]]).trace
        Resource.vbo Resource.shaderProgram := by
  decide

/-! ## The claim about the order of release -/

theorem loadShader_length (status : Int) (infoLog : Nat → String) (shaderID : Nat)
    (shaderSource : String) :
    (loadShader status infoLog shaderID shaderSource).length = 3 ∨
    (loadShader status infoLog shaderID shaderSource).length = 5 := by
  unfold loadShader
  split <;> simp

theorem createIndex (env : Env) (rest : List Call) (r : Resource) :
    List.indexOf (createCall env r)
        ((startup env ++ [Call.SDL_GL_CreateContext env.window, Call.gladLoadGLLoader] ++
          loaderReport env ++ shaderSetup env ++ geometrySetup env) ++ rest) =
      match r with
      | Resource.context => 8
      | Resource.vertexShader => 17
      | Resource.fragmentShader =>
        18 + (loadShader env.vertexStatus env.vertexInfoLog env.vertexShader vertexSource).length
      | Resource.shaderProgram =>
        19 + (loadShader env.vertexStatus env.vertexInfoLog env.vertexShader vertexSource).length +
          (loadShader env.fragmentStatus env.fragmentInfoLog env.fragmentShader
            fragmentSource).length
      | Resource.vbo =>
        24 + (loadShader env.vertexStatus env.vertexInfoLog env.vertexShader vertexSource).length +
          (loadShader env.fragmentStatus env.fragmentInfoLog env.fragmentShader
            fragmentSource).length
      | Resource.vao =>
        27 + (loadShader env.vertexStatus env.vertexInfoLog env.vertexShader vertexSource).length +
          (loadShader env.fragmentStatus env.fragmentInfoLog env.fragmentShader
            fragmentSource).length := by
  have key : ∀ (a b : List Call) (c : Call), c ∉ a →
      List.indexOf c (a ++ c :: b) = a.length := by
    intro a b c h
    rw [List.indexOf_append_of_not_mem h, List.indexOf_cons_self]
    rfl
  have hload : ∀ (c : Call) (status : Int) (infoLog : Nat → String) (shaderID : Nat)
      (shaderSource : String), isGraphicsCall c = true →
      (∀ n, c ≠ Call.glCompileShader n) → (∀ n m src, c ≠ Call.glShaderSource n m src) →
      (∀ n e, c ≠ Call.glGetShaderiv n e) → (∀ n m, c ≠ Call.glGetShaderInfoLog n m) →
      c ∉ loadShader status infoLog shaderID shaderSource := by
    intro c status infoLog shaderID shaderSource hg h1 h2 h3 h4 hc
    unfold loadShader at hc
    simp only [List.mem_append, List.mem_cons, List.mem_singleton, List.not_mem_nil,
      or_false] at hc
    rcases hc with (hc | hc | hc) | hc
    · exact h2 _ _ _ hc
    · exact h1 _ hc
    · exact h3 _ _ hc
    · split at hc
      · simp only [List.mem_cons, List.mem_singleton, List.not_mem_nil, or_false] at hc
        rcases hc with hc | hc
        · exact h4 _ _ hc
        · subst hc; simp [isGraphicsCall] at hg
      · simp at hc
  cases r
  · have hT : (startup env ++ [Call.SDL_GL_CreateContext env.window, Call.gladLoadGLLoader] ++
        loaderReport env ++ shaderSetup env ++ geometrySetup env) ++ rest =
        startup env ++ Call.SDL_GL_CreateContext env.window ::
          ([Call.gladLoadGLLoader] ++ loaderReport env ++ shaderSetup env ++
            geometrySetup env ++ rest) := by
      simp
    simp only [createCall]
    rw [hT, key _ _ _ (by simp [startup])]
    simp [startup]
  · have hT : (startup env ++ [Call.SDL_GL_CreateContext env.window, Call.gladLoadGLLoader] ++
        loaderReport env ++ shaderSetup env ++ geometrySetup env) ++ rest =
        (startup env ++ [Call.SDL_GL_CreateContext env.window, Call.gladLoadGLLoader] ++
          loaderReport env) ++ Call.glCreateShader GLenum.GL_VERTEX_SHADER ::
          (loadShader env.vertexStatus env.vertexInfoLog env.vertexShader vertexSource ++
            [Call.glCreateShader GLenum.GL_FRAGMENT_SHADER] ++
            loadShader env.fragmentStatus env.fragmentInfoLog env.fragmentShader
              fragmentSource ++
            [ Call.glCreateProgram,
              Call.glAttachShader env.shaderProgram env.vertexShader,
              Call.glAttachShader env.shaderProgram env.fragmentShader,
              Call.glBindFragDataLocation env.shaderProgram 0 "outColor",
              Call.glLinkProgram env.shaderProgram ] ++ geometrySetup env ++ rest) := by
      simp [shaderSetup]
    simp only [createCall]
    rw [hT, key _ _ _ (by simp [startup, loaderReport])]
    simp [startup, loaderReport]
  · have hT : (startup env ++ [Call.SDL_GL_CreateContext env.window, Call.gladLoadGLLoader] ++
        loaderReport env ++ shaderSetup env ++ geometrySetup env) ++ rest =
        (startup env ++ [Call.SDL_GL_CreateContext env.window, Call.gladLoadGLLoader] ++
          loaderReport env ++ [Call.glCreateShader GLenum.GL_VERTEX_SHADER] ++
          loadShader env.vertexStatus env.vertexInfoLog env.vertexShader vertexSource) ++
          Call.glCreateShader GLenum.GL_FRAGMENT_SHADER ::
          (loadShader env.fragmentStatus env.fragmentInfoLog env.fragmentShader
              fragmentSource ++
            [ Call.glCreateProgram,
              Call.glAttachShader env.shaderProgram env.vertexShader,
              Call.glAttachShader env.shaderProgram env.fragmentShader,
              Call.glBindFragDataLocation env.shaderProgram 0 "outColor",
              Call.glLinkProgram env.shaderProgram ] ++ geometrySetup env ++ rest) := by
      simp [shaderSetup]
    have hn := hload (Call.glCreateShader GLenum.GL_FRAGMENT_SHADER) env.vertexStatus
      env.vertexInfoLog env.vertexShader vertexSource rfl (by simp) (by simp) (by simp) (by simp)
    simp only [createCall]
    rw [hT, key _ _ _ (by simp [startup, loaderReport, hn])]
    simp [startup, loaderReport]
    omega
  · have hT : (startup env ++ [Call.SDL_GL_CreateContext env.window, Call.gladLoadGLLoader] ++
        loaderReport env ++ shaderSetup env ++ geometrySetup env) ++ rest =
        (startup env ++ [Call.SDL_GL_CreateContext env.window, Call.gladLoadGLLoader] ++
          loaderReport env ++ [Call.glCreateShader GLenum.GL_VERTEX_SHADER] ++
          loadShader env.vertexStatus env.vertexInfoLog env.vertexShader vertexSource ++
          [Call.glCreateShader GLenum.GL_FRAGMENT_SHADER] ++
          loadShader env.fragmentStatus env.fragmentInfoLog env.fragmentShader
            fragmentSource) ++
          Call.glCreateProgram ::
          ([ Call.glAttachShader env.shaderProgram env.vertexShader,
              Call.glAttachShader env.shaderProgram env.fragmentShader,
              Call.glBindFragDataLocation env.shaderProgram 0 "outColor",
              Call.glLinkProgram env.shaderProgram ] ++ geometrySetup env ++ rest) := by
      simp [shaderSetup]
    have hn1 := hload Call.glCreateProgram env.vertexStatus
      env.vertexInfoLog env.vertexShader vertexSource rfl (by simp) (by simp) (by simp) (by simp)
    have hn2 := hload Call.glCreateProgram env.fragmentStatus
      env.fragmentInfoLog env.fragmentShader fragmentSource rfl (by simp) (by simp) (by simp)
      (by simp)
    simp only [createCall]
    rw [hT, key _ _ _ (by simp [startup, loaderReport, hn1, hn2])]
    simp [startup, loaderReport]
    omega
  · have hT : (startup env ++ [Call.SDL_GL_CreateContext env.window, Call.gladLoadGLLoader] ++
        loaderReport env ++ shaderSetup env ++ geometrySetup env) ++ rest =
        (startup env ++ [Call.SDL_GL_CreateContext env.window, Call.gladLoadGLLoader] ++
          loaderReport env ++ [Call.glCreateShader GLenum.GL_VERTEX_SHADER] ++
          loadShader env.vertexStatus env.vertexInfoLog env.vertexShader vertexSource ++
          [Call.glCreateShader GLenum.GL_FRAGMENT_SHADER] ++
          loadShader env.fragmentStatus env.fragmentInfoLog env.fragmentShader
            fragmentSource ++
          [ Call.glCreateProgram,
            Call.glAttachShader env.shaderProgram env.vertexShader,
            Call.glAttachShader env.shaderProgram env.fragmentShader,
            Call.glBindFragDataLocation env.shaderProgram 0 "outColor",
            Call.glLinkProgram env.shaderProgram ]) ++
          Call.glGenBuffers 1 :: ((geometrySetup env).tail ++ rest) := by
      simp [shaderSetup, geometrySetup]
    have hn1 := hload (Call.glGenBuffers 1) env.vertexStatus
      env.vertexInfoLog env.vertexShader vertexSource rfl (by simp) (by simp) (by simp) (by simp)
    have hn2 := hload (Call.glGenBuffers 1) env.fragmentStatus
      env.fragmentInfoLog env.fragmentShader fragmentSource rfl (by simp) (by simp) (by simp)
      (by simp)
    simp only [createCall]
    rw [hT, key _ _ _ (by simp [startup, loaderReport, hn1, hn2])]
    simp [startup, loaderReport]
    omega
  · have hT : (startup env ++ [Call.SDL_GL_CreateContext env.window, Call.gladLoadGLLoader] ++
        loaderReport env ++ shaderSetup env ++ geometrySetup env) ++ rest =
        (startup env ++ [Call.SDL_GL_CreateContext env.window, Call.gladLoadGLLoader] ++
          loaderReport env ++ [Call.glCreateShader GLenum.GL_VERTEX_SHADER] ++
          loadShader env.vertexStatus env.vertexInfoLog env.vertexShader vertexSource ++
          [Call.glCreateShader GLenum.GL_FRAGMENT_SHADER] ++
          loadShader env.fragmentStatus env.fragmentInfoLog env.fragmentShader
            fragmentSource ++
          [ Call.glCreateProgram,
            Call.glAttachShader env.shaderProgram env.vertexShader,
            Call.glAttachShader env.shaderProgram env.fragmentShader,
            Call.glBindFragDataLocation env.shaderProgram 0 "outColor",
            Call.glLinkProgram env.shaderProgram ] ++ (geometrySetup env).take 3) ++
          Call.glGenVertexArrays 1 :: ((geometrySetup env).drop 4 ++ rest) := by
      simp [shaderSetup, geometrySetup]
    have hn1 := hload (Call.glGenVertexArrays 1) env.vertexStatus
      env.vertexInfoLog env.vertexShader vertexSource rfl (by simp) (by simp) (by simp) (by simp)
    have hn2 := hload (Call.glGenVertexArrays 1) env.fragmentStatus
      env.fragmentInfoLog env.fragmentShader fragmentSource rfl (by simp) (by simp) (by simp)
      (by simp)
    simp only [createCall]
    rw [hT, key _ _ _ (by simp [startup, loaderReport, geometrySetup, hn1, hn2])]
    simp [startup, loaderReport, geometrySetup]
    omega

theorem releaseIndex (env : Env) (before : List Call)
    (hb : ∀ c ∈ before, isReleaseCall c = false)
    (hd : env.vertexShader ≠ env.fragmentShader) (r : Resource) :
    List.indexOf (releaseCall env r) (before ++ cleanUp env) =
      before.length +
        (match r with
          | Resource.shaderProgram => 0
          | Resource.fragmentShader => 1
          | Resource.vertexShader => 2
          | Resource.vbo => 3
          | Resource.vao => 4
          | Resource.context => 5) := by
  have hrel : isReleaseCall (releaseCall env r) = true := by cases r <;> rfl
  have hn : releaseCall env r ∉ before := by
    intro hc
    rw [hb _ hc] at hrel
    exact Bool.false_ne_true hrel
  have hd2 : env.fragmentShader ≠ env.vertexShader := fun h => hd h.symm
  rw [List.indexOf_append_of_not_mem hn]
  cases r <;> simp [releaseCall, cleanUp, List.indexOf_cons, hd, hd2]

/-- C9, as amended: on a run that leaves the frame loop by quit, on a platform
that gives the two shaders different names, of two resources the one created
later is released earlier exactly when the earlier one is the rendering context
or the later one is a shader or the program; the vertex buffer and the
vertex-array object are released after the program and the shaders, and the
buffer before the vertex array. -/
theorem release_order (env : Env) (events : List (List SDL_Event))
    (hw : env.window ≠ 0) (hg : env.gladLoadGLLoader ≠ 0)
    (hq : ∃ p ∈ events, ∃ e ∈ p,
      e.type = SDL_QUIT ∨ (e.type = SDL_KEYUP ∧ e.sym = SDLK_ESCAPE))
    (hd : env.vertexShader ≠ env.fragmentShader) (r1 r2 : Resource)
    (hc : createdBefore env (main env events).trace r1 r2) :
    releasedBefore env (main env events).trace r2 r1 ↔
      (r1 = Resource.context ∨ (r2 ≠ Resource.vbo ∧ r2 ≠ Resource.vao)) := by
  have hbefore : ∀ c ∈ (startup env ++
      [Call.SDL_GL_CreateContext env.window, Call.gladLoadGLLoader] ++
      loaderReport env ++ shaderSetup env ++ geometrySetup env) ++
      (gameLoop env events { quit := false, fullScreen := false }).2,
      isReleaseCall c = false := by
    intro c hc
    rcases List.mem_append.1 hc with h | h
    · exact setup_not_release env c h
    · exact gameLoop_not_release env events _ c h
  have htrace := main_of_quit env events hw hg hq
  unfold createdBefore at hc
  unfold releasedBefore
  rw [htrace, createIndex, createIndex] at hc
  rw [htrace, ← List.append_assoc, releaseIndex env _ hbefore hd, releaseIndex env _ hbefore hd]
  rcases loadShader_length env.vertexStatus env.vertexInfoLog env.vertexShader vertexSource
    with ha | ha <;>
  rcases loadShader_length env.fragmentStatus env.fragmentInfoLog env.fragmentShader
    fragmentSource with hb | hb <;>
  rw [ha, hb] at hc <;>
  cases r1 <;> cases r2 <;> simp at hc ⊢

/-- Witness for C9 as amended: the two shaders on the sample platform, the
window being closed in the first polling pass. -/
theorem release_order_witness :
    releasedBefore sampleEnv (main sampleEnv [[closeEvent]]).trace
        Resource.fragmentShader Resource.vertexShader ↔
      (Resource.vertexShader = Resource.context ∨
        (Resource.fragmentShader ≠ Resource.vbo ∧ Resource.fragmentShader ≠ Resource.vao)) :=
  release_order sampleEnv [[closeEvent]] (by decide) (by decide) (by decide) (by decide)
    Resource.vertexShader Resource.fragmentShader (by decide)

end ColoredTriangle
